import Mathlib

/-!
Verification development for the ring-mqtt bridge.

This file gives a shallow embedding, in Lean, of the device-mapping layer
(`src/lib/state.js`, class `DeviceMapper` and class `RingMqtt`), of the
intercom lock wrapper (`src/devices/intercom.js`), of the topic
construction of the beam and contact-sensor wrappers
(`src/devices/beam.js`, `src/devices/contact-sensor.js`) and of the media
process supervisor (`src/lib/mediamtx.js`), together with theorems about
the embedded definitions.

JavaScript objects are embedded as Lean structures; a JS field that may be
absent becomes an `Option` field (`none` = the property is absent); a JS
field that is always present but may hold `undefined` becomes
`Option (Option _)` where the outer layer records presence of the property
and the inner layer records a defined value.  A JS function that can throw
is embedded with an explicit `thrown` result constructor.  Timers are
embedded with explicit identifiers so that the set of live (armed,
unfired, uncancelled) timers is observable.
-/

/-- Raw vendor device payload (`device.data` in the source).  Only the
fields the embedded code reads are modelled.  `parentZid = none` means the
`parentZid` property is absent from the payload. -/
structure DeviceData where
  parentZid : Option String := none
  device_id : String := ""
  subCategoryId : Nat := 0
  deriving Repr, DecidableEq

/-- Which JS class the vendor object is an instance of.  `RingCamera`,
`RingChime` and `RingIntercom` are concrete classes of the external
`ring-client-api` library; every table-dispatched device (plain
`RingDevice` or the synthetic `location.mode` object) is `other`. -/
inductive DeviceKind where
  | camera
  | chime
  | intercom
  | other
  deriving Repr, DecidableEq

/-- A vendor device descriptor as consumed by `DeviceMapper`. -/
structure Device where
  id : String
  deviceType : String
  kind : DeviceKind := DeviceKind.other
  categoryId : Nat := 0
  tags : List String := []
  data : DeviceData := {}
  deriving Repr, DecidableEq

/-- Camera history event (`events` items); the mapper only reads
`source_id`. -/
structure Event where
  source_id : String
  deriving Repr, DecidableEq

/-- JS `String.prototype.startsWith`, embedded structurally over the
character lists of the two strings (Lean's own `String.startsWith` is not
kernel-reducible). -/
def strStartsWith (s p : String) : Bool :=
  p.data.isPrefixOf s.data

/- Device-type strings: the values of the external `ring-client-api`
`RingDeviceType` enum that `src/lib/state.js` imports, as published by
that library (the source also compares against several of them as string
literals, e.g. `'sensor.zone'` in `contact-sensor.js` and the
`*.beams` types in `beam.js`). -/
namespace RingDeviceType

def SecurityPanel : String := "security-panel"
def ContactSensor : String := "sensor.contact"
def RetrofitZone : String := "sensor.zone"
def TiltSensor : String := "sensor.tilt"
def GlassbreakSensor : String := "sensor.glassbreak"
def MotionSensor : String := "sensor.motion"
def Sensor : String := "sensor"
def FloodFreezeSensor : String := "sensor.flood-freeze"
def SmokeAlarm : String := "alarm.smoke"
def CoAlarm : String := "alarm.co"
def SmokeCoListener : String := "listener.smoke-co"
def TemperatureSensor : String := "sensor.temperature"
def BeamsMotionSensor : String := "motion-sensor.beams"
def BeamsDevice : String := "device.beams"
def BeamsMultiLevelSwitch : String := "switch.multilevel.beams"
def BeamsTransformerSwitch : String := "switch.transformer.beams"
def BeamsLightGroupSwitch : String := "group.light-group.beams"
def Switch : String := "switch"
def MultiLevelSwitch : String := "switch.multilevel"
def Thermostat : String := "temperature-control.thermostat"
def WaterValve : String := "valve.water"
def BaseStation : String := "hub.redsky"
def RangeExtender : String := "range-extender.zwave"
def RingNetAdapter : String := "adapter.ringnet"
def Keypad : String := "security-keypad"
def BeamsSwitch : String := "switch.beams"

end RingDeviceType

/-- The `deviceInfo` object built by `DeviceMapper.buildDeviceInfo` and
decorated by some creator closures.  `childDevices`/`parentDevice` are
conditionally-spread properties, so the outer `Option` is property
presence; `parentDevice`'s inner `Option` is the (possibly `undefined`)
result of `allDevices.find`, and likewise for `securityPanel`. -/
structure DeviceInfo where
  device : Device
  childDevices : Option (List Device) := none
  parentDevice : Option (Option Device) := none
  securityPanel : Option (Option Device) := none
  bypassCapableDevices : Option (List Device) := none
  deriving Repr, DecidableEq

/-- The concrete wrapper class chosen by the mapper.  The camera wrapper
receives the filtered event history as a constructor argument. -/
inductive Wrapper where
  | camera (events : List Event)
  | chime
  | intercom
  | securityPanel
  | binarySensor
  | floodFreezeSensor
  | smokeAlarm
  | coAlarm
  | smokeCoListener
  | temperatureSensor
  | beam
  | beamOutdoorPlug
  | switchDevice
  | fan
  | multiLevelSwitch
  | thermostat
  | valve
  | baseStation
  | rangeExtender
  | bridge
  | keypad
  | panicButton
  | lock
  | modesPanel
  | siren
  deriving Repr, DecidableEq

/-- Result of `DeviceMapper.mapDevice`: a constructed wrapper, the string
`'ignore'`, the string `'not-supported'`, a thrown JS exception, or —
when the property lookup on the `creators` literal walked up the
prototype chain and called an inherited `Object.prototype` member — a
junk value that is neither a wrapper instance nor one of the sentinel
strings.  `truthy` records the JS truthiness of the junk value, which
decides what `processDevices` does with it. -/
inductive MapResult where
  | wrapped (w : Wrapper) (info : DeviceInfo)
  | ignore
  | notSupported
  | thrown (msg : String)
  | junkValue (description : String) (truthy : Bool)
  deriving Repr, DecidableEq

/-- `DeviceMapper.hasChildDevices`: some sibling's `data.parentZid`
strictly equals this device's id. -/
def hasChildDevices (device : Device) (allDevices : List Device) : Bool :=
  allDevices.any (fun d => d.data.parentZid == some device.id)

/-- `DeviceMapper.buildDeviceInfo`: wraps the device, conditionally
spreading a `childDevices` list (present iff some sibling points at this
device) and a `parentDevice` property (present iff the device's payload
has a `parentZid` property; its value is the first sibling with that id,
or `undefined` when none matches). -/
def buildDeviceInfo (device : Device) (allDevices : List Device) : DeviceInfo :=
  { device := device
    childDevices :=
      if hasChildDevices device allDevices then
        some (allDevices.filter (fun d => d.data.parentZid == some device.id))
      else none
    parentDevice :=
      match device.data.parentZid with
      | some pz => some (allDevices.find? (fun d => d.id == pz))
      | none => none }

/-- `DeviceMapper.filterDeviceEvents`. -/
def filterDeviceEvents (device : Device) (events : List Event) : List Event :=
  events.filter (fun e => e.source_id == device.id)

/-- `DeviceMapper.getBypassCapableDevices`. -/
def getBypassCapableDevices (allDevices : List Device) : List Device :=
  let bypassableTypes := [RingDeviceType.ContactSensor, RingDeviceType.RetrofitZone,
    RingDeviceType.MotionSensor, RingDeviceType.TiltSensor, RingDeviceType.GlassbreakSensor]
  allDevices.filter (fun device => bypassableTypes.contains device.deviceType)

/-- `DeviceMapper.createSecurityDevice`: annotates the info with the
location's security panel (the property is assigned even when the find
comes back `undefined`) and constructs a `BinarySensor`. -/
def createSecurityDevice (deviceInfo : DeviceInfo) (allDevices : List Device) : MapResult :=
  let panel := allDevices.find? (fun device => device.deviceType == RingDeviceType.SecurityPanel)
  MapResult.wrapped Wrapper.binarySensor { deviceInfo with securityPanel := some panel }

/-- `DeviceMapper.handleTemperatureSensor`.  When `deviceInfo` has a
`parentDevice` property the source reads
`deviceInfo.parentDevice.deviceType` without checking that the find
succeeded; if the property holds `undefined` (a dangling `parentZid`)
that member access throws a `TypeError`. -/
def handleTemperatureSensor (deviceInfo : DeviceInfo) : MapResult :=
  match deviceInfo.parentDevice with
  | some (some parent) =>
      if parent.deviceType == RingDeviceType.Thermostat then MapResult.ignore
      else MapResult.wrapped Wrapper.temperatureSensor deviceInfo
  | some none =>
      MapResult.thrown "TypeError: Cannot read properties of undefined (reading deviceType)"
  | none => MapResult.wrapped Wrapper.temperatureSensor deviceInfo

/-- One row of the `creators` object literal of
`DeviceMapper.mapByDeviceType`: the creator closure stored under a key,
identified by which constructor call its body performs. -/
inductive CreatorTag where
  | securityPanelC
  | securityDeviceC
  | floodFreezeC
  | smokeAlarmC
  | coAlarmC
  | smokeCoListenerC
  | temperatureSensorC
  | beamC
  | beamOutdoorPlugC
  | switchC
  | multiLevelSwitchC
  | thermostatC
  | valveC
  | baseStationC
  | rangeExtenderC
  | ringNetAdapterC
  | keypadC
  | panicButtonC
  | lockC
  | modesPanelC
  | sirenC
  | ignoreC
  deriving Repr, DecidableEq

/-- The `creators` object literal of `mapByDeviceType` as an association
list, own keys in source order.  The `lock` entry is a getter; its row is
tagged `lockC` and handled by `lockGetter` below. -/
def creatorTable : List (String × CreatorTag) :=
  [(RingDeviceType.SecurityPanel, CreatorTag.securityPanelC),
   (RingDeviceType.ContactSensor, CreatorTag.securityDeviceC),
   (RingDeviceType.RetrofitZone, CreatorTag.securityDeviceC),
   (RingDeviceType.TiltSensor, CreatorTag.securityDeviceC),
   (RingDeviceType.GlassbreakSensor, CreatorTag.securityDeviceC),
   (RingDeviceType.MotionSensor, CreatorTag.securityDeviceC),
   (RingDeviceType.Sensor, CreatorTag.securityDeviceC),
   (RingDeviceType.FloodFreezeSensor, CreatorTag.floodFreezeC),
   (RingDeviceType.SmokeAlarm, CreatorTag.smokeAlarmC),
   (RingDeviceType.CoAlarm, CreatorTag.coAlarmC),
   (RingDeviceType.SmokeCoListener, CreatorTag.smokeCoListenerC),
   (RingDeviceType.TemperatureSensor, CreatorTag.temperatureSensorC),
   (RingDeviceType.BeamsMotionSensor, CreatorTag.beamC),
   (RingDeviceType.BeamsDevice, CreatorTag.beamOutdoorPlugC),
   (RingDeviceType.BeamsMultiLevelSwitch, CreatorTag.beamC),
   (RingDeviceType.BeamsTransformerSwitch, CreatorTag.beamC),
   (RingDeviceType.BeamsLightGroupSwitch, CreatorTag.beamC),
   (RingDeviceType.Switch, CreatorTag.switchC),
   (RingDeviceType.MultiLevelSwitch, CreatorTag.multiLevelSwitchC),
   (RingDeviceType.Thermostat, CreatorTag.thermostatC),
   (RingDeviceType.WaterValve, CreatorTag.valveC),
   (RingDeviceType.BaseStation, CreatorTag.baseStationC),
   (RingDeviceType.RangeExtender, CreatorTag.rangeExtenderC),
   (RingDeviceType.RingNetAdapter, CreatorTag.ringNetAdapterC),
   (RingDeviceType.Keypad, CreatorTag.keypadC),
   ("security-remote", CreatorTag.panicButtonC),
   ("lock", CreatorTag.lockC),
   ("location.mode", CreatorTag.modesPanelC),
   ("siren", CreatorTag.sirenC),
   ("siren.outdoor-strobe", CreatorTag.sirenC),
   (RingDeviceType.BeamsSwitch, CreatorTag.ignoreC),
   ("access-code", CreatorTag.ignoreC),
   ("access-code.vault", CreatorTag.ignoreC),
   ("adapter.sidewalk", CreatorTag.ignoreC),
   ("adapter.shadow", CreatorTag.ignoreC),
   ("adapter.zigbee", CreatorTag.ignoreC),
   ("adapter.zwave", CreatorTag.ignoreC),
   ("thermostat-operating-status", CreatorTag.ignoreC)]

/-- Own property keys of the `creators` object literal. -/
def creatorKeys : List String :=
  creatorTable.map (fun kv => kv.1)

/-- The explicit ignore set of `mapByDeviceType` (the eight keys whose
creator closure returns the string `'ignore'` unconditionally). -/
def ignoreSet : List String :=
  [RingDeviceType.BeamsSwitch, "access-code", "access-code.vault", "adapter.sidewalk",
   "adapter.shadow", "adapter.zigbee", "adapter.zwave", "thermostat-operating-status"]

/-- The `get lock()` getter of the `creators` object: yields the `Lock`
creator exactly when the device type starts with `'lock.'` or equals
`'lock'`, and `undefined` otherwise. -/
def lockGetter (t : String) : Option CreatorTag :=
  if strStartsWith t "lock." = true ∨ t = "lock" then some CreatorTag.lockC else none

/-- The property names of `Object.prototype` (ECMAScript, Annex B
members included, as present in Node): `creators[deviceType]` misses
every own key of the object literal only to continue up the prototype
chain, where it finds these members — all of them truthy values, so the
`|| creators.lock` fallback is not reached for them. -/
def objectPrototypeKeys : List String :=
  ["constructor", "hasOwnProperty", "isPrototypeOf", "propertyIsEnumerable",
   "toLocaleString", "toString", "valueOf", "__defineGetter__", "__defineSetter__",
   "__lookupGetter__", "__lookupSetter__", "__proto__"]

/-- What `deviceCreator()` produces when `creators[deviceType]` hit an
inherited `Object.prototype` member: the member is called with no
arguments and `this = undefined` (the file is an ES module, hence strict
mode).  Per ECMAScript: `toString` yields the string
`'[object Undefined]'` (truthy); `constructor` is the `Object` function,
which yields a fresh empty object (truthy); `isPrototypeOf` returns
`false` before coercing `this` (falsy); `toLocaleString` re-invokes
`toString` on `undefined` and throws; `__proto__` is an accessor whose
read yields `Object.prototype` itself, which is not callable, so the
call throws; every remaining member coerces `this` to an object and
throws.  Exception messages are representative Node texts. -/
def callInheritedMember (name : String) : MapResult :=
  if name = "toString" then MapResult.junkValue "the string [object Undefined]" true
  else if name = "constructor" then MapResult.junkValue "a fresh empty object" true
  else if name = "isPrototypeOf" then MapResult.junkValue "false" false
  else if name = "toLocaleString" then
    MapResult.thrown "TypeError: Cannot read properties of undefined (reading toString)"
  else if name = "__proto__" then
    MapResult.thrown "TypeError: deviceCreator is not a function"
  else MapResult.thrown "TypeError: Cannot convert undefined or null to object"

/-- Run a creator closure (the bodies of the `creators` rows). -/
def runCreator (tag : CreatorTag) (device : Device) (deviceInfo : DeviceInfo)
    (allDevices : List Device) : MapResult :=
  match tag with
  | CreatorTag.securityPanelC =>
      MapResult.wrapped Wrapper.securityPanel
        { deviceInfo with bypassCapableDevices := some (getBypassCapableDevices allDevices) }
  | CreatorTag.securityDeviceC => createSecurityDevice deviceInfo allDevices
  | CreatorTag.floodFreezeC => MapResult.wrapped Wrapper.floodFreezeSensor deviceInfo
  | CreatorTag.smokeAlarmC => MapResult.wrapped Wrapper.smokeAlarm deviceInfo
  | CreatorTag.coAlarmC => MapResult.wrapped Wrapper.coAlarm deviceInfo
  | CreatorTag.smokeCoListenerC => MapResult.wrapped Wrapper.smokeCoListener deviceInfo
  | CreatorTag.temperatureSensorC => handleTemperatureSensor deviceInfo
  | CreatorTag.beamC => MapResult.wrapped Wrapper.beam deviceInfo
  | CreatorTag.beamOutdoorPlugC => MapResult.wrapped Wrapper.beamOutdoorPlug deviceInfo
  | CreatorTag.switchC => MapResult.wrapped Wrapper.switchDevice deviceInfo
  | CreatorTag.multiLevelSwitchC =>
      if device.categoryId = 17 then MapResult.wrapped Wrapper.fan deviceInfo
      else MapResult.wrapped Wrapper.multiLevelSwitch deviceInfo
  | CreatorTag.thermostatC => MapResult.wrapped Wrapper.thermostat deviceInfo
  | CreatorTag.valveC => MapResult.wrapped Wrapper.valve deviceInfo
  | CreatorTag.baseStationC => MapResult.wrapped Wrapper.baseStation deviceInfo
  | CreatorTag.rangeExtenderC => MapResult.wrapped Wrapper.rangeExtender deviceInfo
  | CreatorTag.ringNetAdapterC =>
      if device.tags.contains "hidden" then MapResult.ignore
      else MapResult.wrapped Wrapper.bridge deviceInfo
  | CreatorTag.keypadC => MapResult.wrapped Wrapper.keypad deviceInfo
  | CreatorTag.panicButtonC => MapResult.wrapped Wrapper.panicButton deviceInfo
  | CreatorTag.lockC => MapResult.wrapped Wrapper.lock deviceInfo
  | CreatorTag.modesPanelC => MapResult.wrapped Wrapper.modesPanel deviceInfo
  | CreatorTag.sirenC => MapResult.wrapped Wrapper.siren deviceInfo
  | CreatorTag.ignoreC => MapResult.ignore

/-- `DeviceMapper.mapByDeviceType`:
`const deviceCreator = creators[device.deviceType] || creators.lock`,
then `deviceCreator ? deviceCreator() : 'not-supported'`.  The JS
property read `creators[device.deviceType]` first checks the literal's
own keys (the `lock` key is a getter that may yield `undefined`); on an
own-key miss it continues up the prototype chain, so an inherited
`Object.prototype` member name yields that (truthy) member, which is
then called; only when the name is absent from the whole chain does the
`|| creators.lock` fallback (the same getter) apply, and only when that
also yields `undefined` is the result `'not-supported'`. -/
def mapByDeviceType (device : Device) (deviceInfo : DeviceInfo) (allDevices : List Device) :
    MapResult :=
  match creatorTable.find? (fun kv => kv.1 == device.deviceType) with
  | some kv =>
      match (if kv.2 = CreatorTag.lockC then lockGetter device.deviceType else some kv.2) with
      | some tag => runCreator tag device deviceInfo allDevices
      | none => MapResult.notSupported
  | none =>
      if device.deviceType ∈ objectPrototypeKeys then
        callInheritedMember device.deviceType
      else
        match lockGetter device.deviceType with
        | some tag => runCreator tag device deviceInfo allDevices
        | none => MapResult.notSupported

/-- `DeviceMapper.mapDevice`: camera / chime / intercom instances get
their dedicated wrappers directly; everything else dispatches through
`mapByDeviceType`. -/
def mapDevice (device : Device) (allDevices : List Device) (events : List Event) : MapResult :=
  match device.kind with
  | DeviceKind.camera =>
      MapResult.wrapped (Wrapper.camera (filterDeviceEvents device events))
        (buildDeviceInfo device allDevices)
  | DeviceKind.chime => MapResult.wrapped Wrapper.chime (buildDeviceInfo device allDevices)
  | DeviceKind.intercom =>
      MapResult.wrapped Wrapper.intercom (buildDeviceInfo device allDevices)
  | DeviceKind.other => mapByDeviceType device (buildDeviceInfo device allDevices) allDevices

/-! ## The intercom `Lock` wrapper (`src/devices/intercom.js`)

The wrapper's `this.data` holds, per entity, the current state and the
last published state (`publishedState`, initially `null`), plus the
pending auto-revert timer handle (`unlockTimeout` / `timeout`, `false`
when no timer is stored).  Timers are embedded with explicit numeric
handles drawn from a counter, and the runtime's set of live timers
(armed, not yet fired, not cancelled) is carried per entity so that
"at most one pending timer" is an observable statement. -/

/-- One entity slot of the wrapper's `this.data`. -/
structure EntityTrack where
  state : String
  publishedState : Option String
  deriving Repr, DecidableEq

/-- The MQTT state topics of the wrapper's entities.  They are assigned by
the shared base-class initialization (outside the mapped files); the
embedding carries them as opaque strings. -/
structure IntercomTopics where
  dingStateTopic : String
  lockStateTopic : String
  infoStateTopic : String
  deriving Repr, DecidableEq

/-- An observable MQTT publish (topic and payload). -/
structure Publish where
  topic : String
  payload : String
  deriving Repr, DecidableEq

/-- Full observable state of one intercom `Lock` wrapper, including the
timer bookkeeping of the runtime. -/
structure IntercomState where
  lock : EntityTrack
  ding : EntityTrack
  unlockTimeout : Option Nat
  dingTimeout : Option Nat
  nextTimerId : Nat
  liveLockTimers : List Nat
  liveDingTimers : List Nat
  deriving Repr, DecidableEq

/-- The wrapper's initial `this.data` (`LOCKED`/`OFF`, nothing published,
no timers). -/
def initialIntercomState : IntercomState :=
  { lock := { state := "LOCKED", publishedState := none }
    ding := { state := "OFF", publishedState := none }
    unlockTimeout := none
    dingTimeout := none
    nextTimerId := 0
    liveLockTimers := []
    liveDingTimers := [] }

/-- `publishDingState(isPublish)`: publish the ding state when it differs
from the last published value or when `isPublish` is truthy, updating the
cache on publish. -/
def publishDingState (t : IntercomTopics) (isPublish : Bool) (s : IntercomState) :
    IntercomState × List Publish :=
  if (some s.ding.state != s.ding.publishedState) || isPublish then
    ({ s with ding := { s.ding with publishedState := some s.ding.state } },
     [{ topic := t.dingStateTopic, payload := s.ding.state }])
  else (s, [])

/-- `publishLockState(isPublish)`: same pattern for the lock entity. -/
def publishLockState (t : IntercomTopics) (isPublish : Bool) (s : IntercomState) :
    IntercomState × List Publish :=
  if (some s.lock.state != s.lock.publishedState) || isPublish then
    ({ s with lock := { s.lock with publishedState := some s.lock.state } },
     [{ topic := t.lockStateTopic, payload := s.lock.state }])
  else (s, [])

/-- `publishAttributes()`: publishes the attributes document to the info
entity's state topic.  The document is JSON built from the current time
(`lastUpdate`) and optional battery/firmware fields; the embedding keeps
the timestamp it is rendered from as the payload. -/
def publishAttributes (t : IntercomTopics) (now : Nat) : List Publish :=
  [{ topic := t.infoStateTopic, payload := toString now }]

/-- `publishState(data)`: `isPublish` is true exactly when `data` is
`undefined` (a forced full publish); each entity state is then published
through its change-detect helper, and attributes only on a forced
publish. -/
def publishState (t : IntercomTopics) (now : Nat) (data : Option Unit) (s : IntercomState) :
    IntercomState × List Publish :=
  let isPublish := data.isNone
  let r1 := publishDingState t isPublish s
  let r2 := publishLockState t isPublish r1.1
  let r3 := if isPublish then publishAttributes t now else []
  (r2.1, r1.2 ++ r2.2 ++ r3)

/-- `clearTimeout(this.data.ding.timeout)` followed by
`this.data.ding.timeout = false` (the guard of `processDing`): the stored
timer, if any, stops being live. -/
def clearDingTimeout (s : IntercomState) : IntercomState :=
  match s.dingTimeout with
  | some h => { s with liveDingTimers := s.liveDingTimers.erase h, dingTimeout := none }
  | none => s

/-- The guard of `setDoorUnlocked` for the lock entity's timer. -/
def clearUnlockTimeout (s : IntercomState) : IntercomState :=
  match s.unlockTimeout with
  | some h => { s with liveLockTimers := s.liveLockTimers.erase h, unlockTimeout := none }
  | none => s

/-- `processDing()`: clear any pending ding timer, set `ON`, publish in
change-detect mode, then arm a fresh 15-second auto-off timer and store
its handle. -/
def processDing (t : IntercomTopics) (s : IntercomState) : IntercomState × List Publish :=
  let s1 := clearDingTimeout s
  let s2 := { s1 with ding := { s1.ding with state := "ON" } }
  let r := publishDingState t false s2
  let fresh := r.1.nextTimerId
  ({ r.1 with
      dingTimeout := some fresh
      liveDingTimers := fresh :: r.1.liveDingTimers
      nextTimerId := fresh + 1 }, r.2)

/-- `setDoorUnlocked()`: clear any pending unlock timer, set `UNLOCKED`,
publish in change-detect mode, then arm a fresh 5-second auto-revert
timer and store its handle. -/
def setDoorUnlocked (t : IntercomTopics) (s : IntercomState) : IntercomState × List Publish :=
  let s1 := clearUnlockTimeout s
  let s2 := { s1 with lock := { s1.lock with state := "UNLOCKED" } }
  let r := publishLockState t false s2
  let fresh := r.1.nextTimerId
  ({ r.1 with
      unlockTimeout := some fresh
      liveLockTimers := fresh :: r.1.liveLockTimers
      nextTimerId := fresh + 1 }, r.2)

/-- The ding timer's callback firing (only a stored, still-live timer can
fire; a cleared timer never runs): set `OFF`, publish, drop the handle. -/
def dingTimeoutFires (t : IntercomTopics) (s : IntercomState) : IntercomState × List Publish :=
  match s.dingTimeout with
  | some h =>
      let s1 := { s with
        liveDingTimers := s.liveDingTimers.erase h
        ding := { s.ding with state := "OFF" } }
      let r := publishDingState t false s1
      ({ r.1 with dingTimeout := none }, r.2)
  | none => (s, [])

/-- The unlock timer's callback firing: set `LOCKED`, publish, drop the
handle. -/
def unlockTimeoutFires (t : IntercomTopics) (s : IntercomState) : IntercomState × List Publish :=
  match s.unlockTimeout with
  | some h =>
      let s1 := { s with
        liveLockTimers := s.liveLockTimers.erase h
        lock := { s.lock with state := "LOCKED" } }
      let r := publishLockState t false s1
      ({ r.1 with unlockTimeout := none }, r.2)
  | none => (s, [])

/-- The wrapper's externally-triggered transitions: the vendor
`onUnlocked` / `onDing` subscriptions and the two timer callbacks. -/
inductive IntercomEvent where
  | unlocked
  | ding
  | lockTimerFires
  | dingTimerFires
  deriving Repr, DecidableEq

/-- One transition of the intercom wrapper. -/
def intercomStep (t : IntercomTopics) (s : IntercomState) (e : IntercomEvent) :
    IntercomState × List Publish :=
  match e with
  | IntercomEvent.unlocked => setDoorUnlocked t s
  | IntercomEvent.ding => processDing t s
  | IntercomEvent.lockTimerFires => unlockTimeoutFires t s
  | IntercomEvent.dingTimerFires => dingTimeoutFires t s

/-- Timer bookkeeping invariant: for each entity, the live timers are
exactly the stored handle, and handles are drawn below the fresh
counter. -/
def TimerInv (s : IntercomState) : Prop :=
  s.liveLockTimers = s.unlockTimeout.toList ∧
  s.liveDingTimers = s.dingTimeout.toList ∧
  (∀ h ∈ s.liveLockTimers, h < s.nextTimerId) ∧
  (∀ h ∈ s.liveDingTimers, h < s.nextTimerId)

instance (s : IntercomState) : Decidable (TimerInv s) := by
  unfold TimerInv
  infer_instance

/-! ## Republish counter (`src/lib/state.js`, class `RingMqtt`) -/

/-- `this.republishCount = 6` in the `RingMqtt` constructor. -/
def defaultRepublishCount : Nat := 6

/-- The `publishDevices` while-loop with MQTT connectivity held fixed:
`while (republishCount > 0 && mqttConnected) { publish all; sleep 30;
republishCount-- }`.  Returns (number of publish cycles run, final
counter value). -/
def publishDevicesLoop : Nat → Bool → Nat × Nat
  | 0, _ => (0, 0)
  | n + 1, connected =>
    if connected then
      let r := publishDevicesLoop n connected
      (r.1 + 1, r.2)
    else (0, n + 1)

/-- The effect of `handleHomeAssistantRestart`, as a function of the
counter when the Home Assistant `online` message is handled. -/
structure RestartAction where
  newCount : Nat
  startsNewLoop : Bool
  delaySeconds : Nat
  deriving Repr, DecidableEq

/-- `handleHomeAssistantRestart`: while a cycle is still running
(counter > 0) just reset the counter; otherwise wait 15 seconds, reset
the counter and start a fresh `publishLocations` cycle. -/
def handleHomeAssistantRestart (republishCount : Nat) : RestartAction :=
  if republishCount > 0 then
    { newCount := 6, startsNewLoop := false, delaySeconds := 0 }
  else
    { newCount := 6, startsNewLoop := true, delaySeconds := 15 }

/-! ## Device registry (`RingMqtt.processDevices` / `getDeviceId`) -/

/-- An entry of the `devices$` registry: a constructed wrapper stored
under the vendor identifier `processDevices` computed for it. -/
structure MappedDevice where
  deviceId : String
  wrapper : Wrapper
  info : DeviceInfo
  deriving Repr, DecidableEq

/-- `RingMqtt.getDeviceId`: cameras, chimes and intercoms are keyed by
`data.device_id`, everything else by `id`. -/
def getDeviceId (device : Device) : String :=
  match device.kind with
  | DeviceKind.camera => device.data.device_id
  | DeviceKind.chime => device.data.device_id
  | DeviceKind.intercom => device.data.device_id
  | DeviceKind.other => device.id

/-- The body of the `for` loop of `processDevices` for one device: when
the registry already holds the identifier nothing happens (the device is
not mapped); otherwise the device is mapped, `'not-supported'` is only
collected for logging, `'ignore'` is dropped, a wrapper is appended, and
a thrown mapper exception propagates out of the loop.  A falsy junk
value fails the `mappedDevice && mappedDevice !== 'ignore'` test and is
dropped; a truthy junk value is pushed into `devices$` and then
`logNewDevice` reads `.deviceData.name` on it, which throws a
`TypeError` that aborts the loop — as for a mapper exception, the
embedding's error result models the aborted loop (the partially updated
`devices$` subject is not carried by the `Except` value). -/
def processDevice (allDevices : List Device) (events : List Event)
    (registry : List MappedDevice) (device : Device) : Except String (List MappedDevice) :=
  match registry.find? (fun d => d.deviceId == getDeviceId device) with
  | some _ => Except.ok registry
  | none =>
    match mapDevice device allDevices events with
    | MapResult.thrown msg => Except.error msg
    | MapResult.notSupported => Except.ok registry
    | MapResult.ignore => Except.ok registry
    | MapResult.wrapped w info =>
        Except.ok (registry ++ [{ deviceId := getDeviceId device, wrapper := w, info := info }])
    | MapResult.junkValue _ truthy =>
        if truthy then
          Except.error "TypeError: Cannot read properties of undefined (reading name)"
        else Except.ok registry

/-- The `for (const device of allDevices)` loop of `processDevices`,
threading the registry and propagating a thrown exception. -/
def processDevicesAux (allDevices : List Device) (events : List Event) :
    List MappedDevice → List Device → Except String (List MappedDevice)
  | registry, [] => Except.ok registry
  | registry, device :: rest =>
    match processDevice allDevices events registry device with
    | Except.error msg => Except.error msg
    | Except.ok reg2 => processDevicesAux allDevices events reg2 rest

/-- `RingMqtt.processDevices`: run the loop body over the device list. -/
def processDevices (registry : List MappedDevice) (allDevices : List Device)
    (events : List Event) : Except String (List MappedDevice) :=
  processDevicesAux allDevices events registry allDevices

/-! ## Media process supervisor (`src/lib/mediamtx.js`) -/

/-- `MediaMTX.started`: `false` before the first `init`, `true` while
supervising, the string `'shutdown'` after `shutdown()` has run. -/
inductive MtxFlag where
  | notStarted
  | running
  | shutdownFlag
  deriving Repr, DecidableEq

/-- Observable actions of the `close` handler. -/
inductive MtxAction where
  | waitSeconds (n : Nat)
  | forceKill
  | restart
  deriving Repr, DecidableEq

/-- The `close` handler installed by `MediaMTX.init`: wait 1 second; if
the flag is not `'shutdown'`, force-kill the old process (`kill(9)`),
wait 5 seconds and call `init()` again (which sets the flag back to
`true`). -/
def handleClose (flag : MtxFlag) : MtxFlag × List MtxAction :=
  if flag = MtxFlag.shutdownFlag then (flag, [MtxAction.waitSeconds 1])
  else (MtxFlag.running,
    [MtxAction.waitSeconds 1, MtxAction.forceKill, MtxAction.waitSeconds 5, MtxAction.restart])

/-- Events the supervisor reacts to after its first `init`. -/
inductive MtxEvent where
  | closeEvent
  | shutdownCall
  deriving Repr, DecidableEq

/-- One supervisor transition: a process `close` event runs the close
handler; `shutdown()` sets the flag to `'shutdown'` (and kills the
process without any restart scheduling). -/
def mtxStep (flag : MtxFlag) (e : MtxEvent) : MtxFlag × List MtxAction :=
  match e with
  | MtxEvent.closeEvent => handleClose flag
  | MtxEvent.shutdownCall => (MtxFlag.shutdownFlag, [])

/-- Run a sequence of supervisor events, accumulating the actions. -/
def mtxRun (flag : MtxFlag) : List MtxEvent → MtxFlag × List MtxAction
  | [] => (flag, [])
  | e :: es =>
    let r := mtxStep flag e
    let rs := mtxRun r.1 es
    (rs.1, r.2 ++ rs.2)

/-! ## Topic construction (`src/devices/contact-sensor.js`,
`src/devices/beam.js`) -/

/-- The topic set computed by `ContactSensor.init`. -/
structure ContactSensorTopics where
  component : String
  sensorType : String
  deviceTopic : String
  stateTopic : String
  attributesTopic : String
  availabilityTopic : String
  configTopic : String
  deriving Repr, DecidableEq

/-- `ContactSensor.init` topic construction, verbatim from the source
(the component is `binary_sensor`; `sensor.zone` devices use the `zone`
entity name, all others `contact`). -/
def contactSensorInit (alarmTopic locationId deviceId deviceType : String) :
    ContactSensorTopics :=
  let component := "binary_sensor"
  let sensorType := if deviceType = "sensor.zone" then "zone" else "contact"
  let deviceTopic := alarmTopic ++ "/" ++ component ++ "/" ++ deviceId
  { component := component
    sensorType := sensorType
    deviceTopic := deviceTopic
    stateTopic := deviceTopic ++ "/" ++ sensorType ++ "_state"
    attributesTopic := deviceTopic ++ "/attributes"
    availabilityTopic := deviceTopic ++ "/status"
    configTopic := "homeassistant/" ++ component ++ "/" ++ locationId ++ "/" ++ deviceId
      ++ "/config" }

/-- The topic set computed by `Beam.init` (fields that the branch taken
does not assign are `none`). -/
structure BeamTopics where
  availabilityTopic : String
  stateTopic_motion : Option String
  attributesTopic_motion : Option String
  configTopic_motion : Option String
  deviceTopic_light : Option String
  stateTopic_light : Option String
  commandTopic_light : Option String
  attributesTopic_light : Option String
  configTopic_light : Option String
  stateTopic_brightness : Option String
  commandTopic_brightness : Option String
  deriving Repr, DecidableEq

/-- `Beam.init` topic construction, verbatim from the source, string
concatenations included (the light entity's state/command and brightness
topics are concatenated onto `deviceTopic_light` WITHOUT a `/`
separator, exactly as the source writes them).  The source reads a bare
`deviceType` identifier in its branch conditions; the embedding reads the
device's type string, its evident referent. -/
def beamInit (alarmTopic locationId deviceId deviceType : String) : BeamTopics :=
  let availabilityTopic := alarmTopic ++ "/beam/" ++ deviceId ++ "/status"
  let hasMotion := deviceType ≠ "switch.transformer.beams"
  let hasLight := deviceType ≠ "motion-sensor.beams"
  let deviceTopic_motion := alarmTopic ++ "/binary_sensor/" ++ deviceId
  let deviceTopic_light := alarmTopic ++ "/light/" ++ deviceId
  { availabilityTopic := availabilityTopic
    stateTopic_motion :=
      if hasMotion then some (deviceTopic_motion ++ "/motion_state") else none
    attributesTopic_motion :=
      if hasMotion then some (deviceTopic_motion ++ "/attributes") else none
    configTopic_motion :=
      if hasMotion then
        some ("homeassistant/binary_sensor/" ++ locationId ++ "/" ++ deviceId ++ "/config")
      else none
    deviceTopic_light := if hasLight then some deviceTopic_light else none
    stateTopic_light := if hasLight then some (deviceTopic_light ++ "switch_state") else none
    commandTopic_light :=
      if hasLight then some (deviceTopic_light ++ "switch_command") else none
    attributesTopic_light :=
      if hasLight then some (deviceTopic_light ++ "/attributes") else none
    configTopic_light :=
      if hasLight then
        some ("homeassistant/light/" ++ locationId ++ "/" ++ deviceId ++ "/config")
      else none
    stateTopic_brightness :=
      if deviceType = "switch.multilevel.beams" then
        some (deviceTopic_light ++ "brightness_state")
      else none
    commandTopic_brightness :=
      if deviceType = "switch.multilevel.beams" then
        some (deviceTopic_light ++ "brightness_command")
      else none }

/-- The spec's topic scheme for an entity state topic:
`<alarmTopicRoot>/<component>/<deviceId>/<entity>_state`.  This
definition follows the spec's words, for comparison with the topics the
source builds. -/
def schemeStateTopic (alarmTopicRoot component deviceId entity : String) : String :=
  alarmTopicRoot ++ "/" ++ component ++ "/" ++ deviceId ++ "/" ++ entity ++ "_state"

/-- The spec's availability topic scheme:
`<alarmTopicRoot>/<component>/<deviceId>/status`. -/
def schemeAvailabilityTopic (alarmTopicRoot component deviceId : String) : String :=
  alarmTopicRoot ++ "/" ++ component ++ "/" ++ deviceId ++ "/status"

/-- The spec's attributes topic scheme:
`<alarmTopicRoot>/<component>/<deviceId>/attributes`. -/
def schemeAttributesTopic (alarmTopicRoot component deviceId : String) : String :=
  alarmTopicRoot ++ "/" ++ component ++ "/" ++ deviceId ++ "/attributes"

/-- The spec's discovery/config topic scheme:
`homeassistant/<component>/<locationId>/<deviceId>/config`. -/
def schemeConfigTopic (component locationId deviceId : String) : String :=
  "homeassistant/" ++ component ++ "/" ++ locationId ++ "/" ++ deviceId ++ "/config"

/-- C1's failing input: a temperature sensor whose `parentZid` names no
sibling. -/
def danglingTempSensor : Device :=
  { id := "temp1"
    deviceType := RingDeviceType.TemperatureSensor
    data := { parentZid := some "missing-parent" } }

/-- C4 witness topics. -/
def topicsW : IntercomTopics :=
  { dingStateTopic := "ding/state", lockStateTopic := "lock/state",
    infoStateTopic := "info/state" }

/-- C4 witness state: an unlock followed by a ding from the initial
state, leaving one pending timer of each kind (handles 0 and 1). -/
def intercomStateW : IntercomState :=
  (intercomStep topicsW
    (intercomStep topicsW initialIntercomState IntercomEvent.unlocked).1
    IntercomEvent.ding).1

/-- C6 counterexample input: a device whose type string is an inherited
`Object.prototype` member name, not an own key of the `creators`
table. -/
def toStringDevice : Device :=
  { id := "x1", deviceType := "toString" }

/-- C7 witness A: a concrete security panel. -/
def deviceA : Device :=
  { id := "a1", deviceType := "security-panel" }

/-- C7 witness B: a concrete contact sensor whose `parentZid` is A's
id. -/
def deviceB : Device :=
  { id := "b1", deviceType := "sensor.contact", data := { parentZid := some "a1" } }

/-- C9 witness registry: one already-registered identifier. -/
def registryW : List MappedDevice :=
  [{ deviceId := "id1", wrapper := Wrapper.chime,
     info := { device := { id := "id1", deviceType := "chime", kind := DeviceKind.chime } } }]

/-- C9 witness device: re-discovered with the registered identifier. -/
def deviceW : Device :=
  { id := "id1", deviceType := "sensor.contact" }

/-! ## Helper lemmas -/

/-- While MQTT stays connected, the `publishDevices` loop runs exactly
`n` cycles (one decrement each) and ends with the counter at 0. -/
lemma publishDevicesLoop_connected (n : Nat) : publishDevicesLoop n true = (n, 0) := by
  induction n with
  | zero => rfl
  | succ n ih => simp [publishDevicesLoop, ih]

/-- A device type outside the `creators` keys misses the table lookup. -/
lemma creatorTable_find?_eq_none (t : String) (h : t ∉ creatorKeys) :
    creatorTable.find? (fun kv => kv.1 == t) = none := by
  apply List.find?_eq_none.mpr
  intro kv hkv
  simp only [beq_iff_eq]
  intro he
  exact h (he ▸ List.mem_map_of_mem (fun kv => kv.1) hkv)

/-- `find?` by id returns the listed device when its id is unique. -/
lemma find_by_unique_id (A : Device) (l : List Device) (hA : A ∈ l)
    (huniq : ∀ d ∈ l, d.id = A.id → d = A) :
    l.find? (fun d => d.id == A.id) = some A := by
  induction l with
  | nil => cases hA
  | cons c cs ih =>
    by_cases hc : c.id = A.id
    · have hcA : c = A := huniq c (List.mem_cons_self c cs) hc
      have hb : (c.id == A.id) = true := beq_iff_eq.mpr hc
      simp [List.find?, hb, hcA]
    · have hA' : A ∈ cs := by
        rcases List.mem_cons.mp hA with rfl | hmem
        · exact absurd rfl hc
        · exact hmem
      have hb : (c.id == A.id) = false := beq_eq_false_iff_ne.mpr hc
      simp only [List.find?, hb]
      exact ih hA' (fun d hd hid => huniq d (List.mem_cons_of_mem c hd) hid)

/-- When the registry already holds the identifier, the loop body leaves
it unchanged (and performs no mapping). -/
lemma processDevice_existing (allDevices : List Device) (events : List Event)
    (registry : List MappedDevice) (device : Device)
    (h : getDeviceId device ∈ registry.map (fun d => d.deviceId)) :
    processDevice allDevices events registry device = Except.ok registry := by
  obtain ⟨m, hm, hid⟩ := List.mem_map.mp h
  unfold processDevice
  cases hfind : registry.find? (fun d => d.deviceId == getDeviceId device) with
  | some m2 => rfl
  | none =>
    exfalso
    have := List.find?_eq_none.mp hfind m hm
    simp [hid] at this

/-- A failed registry lookup means the identifier is absent. -/
lemma find?_none_not_mem (i : String) (registry : List MappedDevice)
    (h : registry.find? (fun d => d.deviceId == i) = none) :
    i ∉ registry.map (fun d => d.deviceId) := by
  intro hmem
  obtain ⟨m, hm, hid⟩ := List.mem_map.mp hmem
  have := List.find?_eq_none.mp h m hm
  simp [hid] at this

/-- The loop body preserves distinctness of the registered identifiers. -/
lemma processDevice_nodup (allDevices : List Device) (events : List Event)
    (registry r : List MappedDevice) (device : Device)
    (hn : (registry.map (fun d => d.deviceId)).Nodup)
    (hr : processDevice allDevices events registry device = Except.ok r) :
    (r.map (fun d => d.deviceId)).Nodup := by
  unfold processDevice at hr
  cases hfind : registry.find? (fun d => d.deviceId == getDeviceId device) with
  | some m =>
    rw [hfind] at hr
    simp only [Except.ok.injEq] at hr
    exact hr ▸ hn
  | none =>
    rw [hfind] at hr
    have hni := find?_none_not_mem _ _ hfind
    cases hmap : mapDevice device allDevices events with
    | thrown msg => rw [hmap] at hr; cases hr
    | notSupported =>
      rw [hmap] at hr
      simp only [Except.ok.injEq] at hr
      exact hr ▸ hn
    | ignore =>
      rw [hmap] at hr
      simp only [Except.ok.injEq] at hr
      exact hr ▸ hn
    | wrapped w info =>
      rw [hmap] at hr
      simp only [Except.ok.injEq] at hr
      subst hr
      rw [List.map_append, List.nodup_append]
      refine ⟨hn, List.nodup_singleton _, ?_⟩
      intro x hx hx1
      simp only [List.map_cons, List.map_nil, List.mem_singleton] at hx1
      exact hni (hx1 ▸ hx)
    | junkValue desc truthy =>
      rw [hmap] at hr
      cases truthy with
      | true => simp at hr
      | false =>
        simp only [Bool.false_eq_true, if_false, Except.ok.injEq] at hr
        exact hr ▸ hn

/-- The `processDevices` loop preserves distinctness of registered
identifiers (generalized over the iterated list). -/
lemma processDevicesAux_nodup (allDevices : List Device) (events : List Event) :
    ∀ (l : List Device) (registry r : List MappedDevice),
      (registry.map (fun d => d.deviceId)).Nodup →
      processDevicesAux allDevices events registry l = Except.ok r →
      (r.map (fun d => d.deviceId)).Nodup := by
  intro l
  induction l with
  | nil =>
    intro registry r hn hr
    rw [processDevicesAux] at hr
    cases hr
    exact hn
  | cons d ds ih =>
    intro registry r hn hr
    rw [processDevicesAux] at hr
    cases hp : processDevice allDevices events registry d with
    | error msg => rw [hp] at hr; cases hr
    | ok reg2 =>
      rw [hp] at hr
      exact ih reg2 r (processDevice_nodup allDevices events registry reg2 d hn hp) hr

/-- `Option.toList` holds at most one element. -/
lemma option_toList_length_le_one (o : Option Nat) : o.toList.length ≤ 1 := by
  cases o <;> simp

/-- `clearUnlockTimeout` empties the lock entity's live timers whenever
they were exactly the stored handle. -/
lemma clearUnlockTimeout_live_nil (s : IntercomState)
    (h1 : s.liveLockTimers = s.unlockTimeout.toList) :
    (clearUnlockTimeout s).liveLockTimers = [] := by
  cases hu : s.unlockTimeout with
  | none =>
    simp only [clearUnlockTimeout, hu]
    rw [h1, hu]
    rfl
  | some h0 =>
    simp only [clearUnlockTimeout, hu]
    rw [h1, hu]
    simp [Option.toList]

/-- `clearDingTimeout` empties the ding entity's live timers whenever
they were exactly the stored handle. -/
lemma clearDingTimeout_live_nil (s : IntercomState)
    (h2 : s.liveDingTimers = s.dingTimeout.toList) :
    (clearDingTimeout s).liveDingTimers = [] := by
  cases hu : s.dingTimeout with
  | none =>
    simp only [clearDingTimeout, hu]
    rw [h2, hu]
    rfl
  | some h0 =>
    simp only [clearDingTimeout, hu]
    rw [h2, hu]
    simp [Option.toList]

/-- What `setDoorUnlocked` does to the state besides publishing. -/
lemma setDoorUnlocked_spec (t : IntercomTopics) (s : IntercomState) :
    (setDoorUnlocked t s).1.lock.state = "UNLOCKED" ∧
    (setDoorUnlocked t s).1.unlockTimeout = some s.nextTimerId ∧
    (setDoorUnlocked t s).1.liveLockTimers
      = s.nextTimerId :: (clearUnlockTimeout s).liveLockTimers ∧
    (setDoorUnlocked t s).1.dingTimeout = s.dingTimeout ∧
    (setDoorUnlocked t s).1.liveDingTimers = s.liveDingTimers ∧
    (setDoorUnlocked t s).1.nextTimerId = s.nextTimerId + 1 := by
  simp only [setDoorUnlocked, clearUnlockTimeout, publishLockState]
  cases hu : s.unlockTimeout <;> split <;> simp

/-- What `processDing` does to the state besides publishing. -/
lemma processDing_spec (t : IntercomTopics) (s : IntercomState) :
    (processDing t s).1.ding.state = "ON" ∧
    (processDing t s).1.dingTimeout = some s.nextTimerId ∧
    (processDing t s).1.liveDingTimers
      = s.nextTimerId :: (clearDingTimeout s).liveDingTimers ∧
    (processDing t s).1.unlockTimeout = s.unlockTimeout ∧
    (processDing t s).1.liveLockTimers = s.liveLockTimers ∧
    (processDing t s).1.nextTimerId = s.nextTimerId + 1 := by
  simp only [processDing, clearDingTimeout, publishDingState]
  cases hu : s.dingTimeout <;> split <;> simp

/-- A cleared (unstored) unlock timer never fires. -/
lemma unlockTimeoutFires_none (t : IntercomTopics) (s : IntercomState)
    (hu : s.unlockTimeout = none) : unlockTimeoutFires t s = (s, []) := by
  simp [unlockTimeoutFires, hu]

/-- A cleared (unstored) ding timer never fires. -/
lemma dingTimeoutFires_none (t : IntercomTopics) (s : IntercomState)
    (hu : s.dingTimeout = none) : dingTimeoutFires t s = (s, []) := by
  simp [dingTimeoutFires, hu]

/-- What the stored unlock timer's callback does when it fires. -/
lemma unlockTimeoutFires_spec (t : IntercomTopics) (s : IntercomState) (h0 : Nat)
    (hu : s.unlockTimeout = some h0) :
    (unlockTimeoutFires t s).1.lock.state = "LOCKED" ∧
    (unlockTimeoutFires t s).1.unlockTimeout = none ∧
    (unlockTimeoutFires t s).1.liveLockTimers = s.liveLockTimers.erase h0 ∧
    (unlockTimeoutFires t s).1.dingTimeout = s.dingTimeout ∧
    (unlockTimeoutFires t s).1.liveDingTimers = s.liveDingTimers ∧
    (unlockTimeoutFires t s).1.nextTimerId = s.nextTimerId := by
  simp only [unlockTimeoutFires, hu, publishLockState]
  split <;> simp

/-- What the stored ding timer's callback does when it fires. -/
lemma dingTimeoutFires_spec (t : IntercomTopics) (s : IntercomState) (h0 : Nat)
    (hu : s.dingTimeout = some h0) :
    (dingTimeoutFires t s).1.ding.state = "OFF" ∧
    (dingTimeoutFires t s).1.dingTimeout = none ∧
    (dingTimeoutFires t s).1.liveDingTimers = s.liveDingTimers.erase h0 ∧
    (dingTimeoutFires t s).1.unlockTimeout = s.unlockTimeout ∧
    (dingTimeoutFires t s).1.liveLockTimers = s.liveLockTimers ∧
    (dingTimeoutFires t s).1.nextTimerId = s.nextTimerId := by
  simp only [dingTimeoutFires, hu, publishDingState]
  split <;> simp

/-- Every intercom transition preserves the timer bookkeeping
invariant. -/
lemma timerInv_step (t : IntercomTopics) (s : IntercomState) (e : IntercomEvent)
    (h : TimerInv s) : TimerInv (intercomStep t s e).1 := by
  obtain ⟨h1, h2, h3, h4⟩ := h
  cases e with
  | unlocked =>
    show TimerInv (setDoorUnlocked t s).1
    obtain ⟨d1, d2, d3, d4, d5, d6⟩ := setDoorUnlocked_spec t s
    have hnil := clearUnlockTimeout_live_nil s h1
    refine ⟨?_, ?_, ?_, ?_⟩
    · rw [d3, hnil, d2]
      rfl
    · rw [d5, d4]
      exact h2
    · intro x hx
      rw [d6]
      rw [d3, hnil] at hx
      simp only [List.mem_singleton] at hx
      omega
    · intro x hx
      rw [d6]
      rw [d5] at hx
      exact Nat.lt_succ_of_lt (h4 x hx)
  | ding =>
    show TimerInv (processDing t s).1
    obtain ⟨d1, d2, d3, d4, d5, d6⟩ := processDing_spec t s
    have hnil := clearDingTimeout_live_nil s h2
    refine ⟨?_, ?_, ?_, ?_⟩
    · rw [d5, d4]
      exact h1
    · rw [d3, hnil, d2]
      rfl
    · intro x hx
      rw [d6]
      rw [d5] at hx
      exact Nat.lt_succ_of_lt (h3 x hx)
    · intro x hx
      rw [d6]
      rw [d3, hnil] at hx
      simp only [List.mem_singleton] at hx
      omega
  | lockTimerFires =>
    show TimerInv (unlockTimeoutFires t s).1
    cases hu : s.unlockTimeout with
    | none =>
      rw [unlockTimeoutFires_none t s hu]
      exact ⟨h1, h2, h3, h4⟩
    | some h0 =>
      obtain ⟨d1, d2, d3, d4, d5, d6⟩ := unlockTimeoutFires_spec t s h0 hu
      have hl : s.liveLockTimers = [h0] := by rw [h1, hu]; rfl
      refine ⟨?_, ?_, ?_, ?_⟩
      · rw [d3, hl, d2]
        simp [Option.toList]
      · rw [d5, d4]
        exact h2
      · intro x hx
        rw [d3, hl] at hx
        simp [Option.toList] at hx
      · intro x hx
        rw [d6]
        rw [d5] at hx
        exact h4 x hx
  | dingTimerFires =>
    show TimerInv (dingTimeoutFires t s).1
    cases hu : s.dingTimeout with
    | none =>
      rw [dingTimeoutFires_none t s hu]
      exact ⟨h1, h2, h3, h4⟩
    | some h0 =>
      obtain ⟨d1, d2, d3, d4, d5, d6⟩ := dingTimeoutFires_spec t s h0 hu
      have hl : s.liveDingTimers = [h0] := by rw [h2, hu]; rfl
      refine ⟨?_, ?_, ?_, ?_⟩
      · rw [d5, d4]
        exact h1
      · rw [d3, hl, d2]
        simp [Option.toList]
      · intro x hx
        rw [d6]
        rw [d5] at hx
        exact h3 x hx
      · intro x hx
        rw [d3, hl] at hx
        simp [Option.toList] at hx

/-- Once the supervisor flag is `'shutdown'`, any sequence of further
events leaves it `'shutdown'` and never emits a restart action. -/
lemma mtxRun_after_shutdown (events : List MtxEvent) :
    (mtxRun MtxFlag.shutdownFlag events).1 = MtxFlag.shutdownFlag ∧
    MtxAction.restart ∉ (mtxRun MtxFlag.shutdownFlag events).2 := by
  induction events with
  | nil => simp [mtxRun]
  | cons e es ih =>
    cases e with
    | closeEvent =>
      simpa [mtxRun, mtxStep, handleClose] using ih
    | shutdownCall =>
      simpa [mtxRun, mtxStep] using ih

/-! ## Claim theorems -/

/-- C1: the claim states that `DeviceMapper.mapDevice` never throws, for
every device, sibling list and event list — including a
`TemperatureSensor` whose `parentZid` is not the id of any sibling.  The
code violates this: on that input `buildDeviceInfo` stores the property
`parentDevice` with value `undefined`, and `handleTemperatureSensor`
reads `deviceInfo.parentDevice.deviceType`, which throws a `TypeError`.
This theorem evaluates the embedded mapper at the failing input. -/
theorem c1_mapper_throws_on_dangling_parent_zid :
    mapDevice danglingTempSensor [danglingTempSensor] []
      = MapResult.thrown
          "TypeError: Cannot read properties of undefined (reading deviceType)" := rfl

/-- C3: the republish counter starts at its default 6; while MQTT stays
connected each cycle of the `publishDevices` loop decrements it by 1 and
the loop stops when it reaches 0 (at counter 0 no cycle runs); a Home
Assistant `online` message arriving while the counter is positive resets
it to 6 without starting a new loop, and one arriving at counter 0 resets
the counter and starts a fresh cycle after a fixed 15-second delay. -/
theorem c3_republish_counter (n c : Nat) (b : Bool) :
    defaultRepublishCount = 6 ∧
    publishDevicesLoop n true = (n, 0) ∧
    publishDevicesLoop 0 b = (0, 0) ∧
    handleHomeAssistantRestart (c + 1) =
      { newCount := 6, startsNewLoop := false, delaySeconds := 0 } ∧
    handleHomeAssistantRestart 0 =
      { newCount := 6, startsNewLoop := true, delaySeconds := 15 } := by
  refine ⟨rfl, publishDevicesLoop_connected n, rfl, ?_, rfl⟩
  simp [handleHomeAssistantRestart]

/-- C5: the claim states that every entity state/attributes/availability
topic follows `<alarmTopicRoot>/<component>/<deviceId>/<entity>_state`,
`/attributes`, `/status`, including the Beam wrapper's light entity.  The
code violates this for the Beam light entity: its state topic is
concatenated without the `/` separator before the entity suffix (and the
Beam availability topic lives under the literal `beam` segment, not the
entity's component).  The contact-sensor topics and the config topics
do follow the scheme. -/
theorem c5_beam_light_topic_breaks_scheme :
    (beamInit "ring/loc1/alarm" "loc1" "dev1" "switch.multilevel.beams").stateTopic_light
        = some "ring/loc1/alarm/light/dev1switch_state" ∧
    (beamInit "ring/loc1/alarm" "loc1" "dev1" "switch.multilevel.beams").stateTopic_light
        ≠ some (schemeStateTopic "ring/loc1/alarm" "light" "dev1" "switch") ∧
    (beamInit "ring/loc1/alarm" "loc1" "dev1" "switch.multilevel.beams").availabilityTopic
        ≠ schemeAvailabilityTopic "ring/loc1/alarm" "light" "dev1" ∧
    (beamInit "ring/loc1/alarm" "loc1" "dev1" "switch.multilevel.beams").stateTopic_motion
        = some (schemeStateTopic "ring/loc1/alarm" "binary_sensor" "dev1" "motion") ∧
    (beamInit "ring/loc1/alarm" "loc1" "dev1" "switch.multilevel.beams").configTopic_light
        = some (schemeConfigTopic "light" "loc1" "dev1") ∧
    (contactSensorInit "ring/loc1/alarm" "loc1" "dev2" "sensor.contact").stateTopic
        = schemeStateTopic "ring/loc1/alarm" "binary_sensor" "dev2" "contact" ∧
    (contactSensorInit "ring/loc1/alarm" "loc1" "dev2" "sensor.contact").attributesTopic
        = schemeAttributesTopic "ring/loc1/alarm" "binary_sensor" "dev2" ∧
    (contactSensorInit "ring/loc1/alarm" "loc1" "dev2" "sensor.contact").availabilityTopic
        = schemeAvailabilityTopic "ring/loc1/alarm" "binary_sensor" "dev2" ∧
    (contactSensorInit "ring/loc1/alarm" "loc1" "dev2" "sensor.contact").configTopic
        = schemeConfigTopic "binary_sensor" "loc1" "dev2" := by
  decide

/-- C8: every table-dispatched device whose type is in the explicit
ignore set maps to `'ignore'` — never `'not-supported'`, never a wrapper.
(Camera/chime/intercom instances are disjoint JS classes from the
table-dispatched devices, hence the `DeviceKind.other` hypothesis.) -/
theorem c8_ignore_set_maps_to_ignore (device : Device) (allDevices : List Device)
    (events : List Event) (ht : device.deviceType ∈ ignoreSet)
    (hk : device.kind = DeviceKind.other) :
    mapDevice device allDevices events = MapResult.ignore := by
  cases device with
  | mk id dt kind cat tags data =>
    obtain rfl : kind = DeviceKind.other := hk
    replace ht : dt ∈ ignoreSet := ht
    simp only [ignoreSet, RingDeviceType.BeamsSwitch, List.mem_cons,
      List.not_mem_nil, or_false] at ht
    rcases ht with h | h | h | h | h | h | h | h <;> subst h <;> rfl

/-- C8 witness: a concrete `access-code` device maps to `'ignore'`. -/
theorem c8_ignore_set_maps_to_ignore_witness :
    mapDevice { id := "ac1", deviceType := "access-code" } [] [] = MapResult.ignore :=
  c8_ignore_set_maps_to_ignore { id := "ac1", deviceType := "access-code" } [] []
    (by decide) rfl

/-- C10: once `shutdown()` has set the supervisor flag to `'shutdown'`,
no later `close` event of the mediamtx process ever triggers a restart
(the flag also never leaves `'shutdown'`); before shutdown, a `close`
event schedules exactly one restart, after a fixed 5-second delay,
force-killing the old process first. -/
theorem c10_no_restart_after_shutdown (events : List MtxEvent) (flag : MtxFlag)
    (h : flag ≠ MtxFlag.shutdownFlag) :
    (mtxRun MtxFlag.shutdownFlag events).1 = MtxFlag.shutdownFlag ∧
    MtxAction.restart ∉ (mtxRun MtxFlag.shutdownFlag events).2 ∧
    handleClose flag =
      (MtxFlag.running,
       [MtxAction.waitSeconds 1, MtxAction.forceKill, MtxAction.waitSeconds 5,
        MtxAction.restart]) ∧
    (handleClose flag).2.count MtxAction.restart = 1 := by
  obtain ⟨h1, h2⟩ := mtxRun_after_shutdown events
  refine ⟨h1, h2, ?_, ?_⟩ <;> cases flag <;> first | rfl | exact absurd rfl h

/-- C2: with the underlying entity data unchanged, a second
change-detect `publishState` (the `data` argument defined) issues zero
MQTT publishes, because the first call left every entity's
last-published-state cache equal to its state; a forced `publishState`
(the `data` argument `undefined`) publishes the state of every owned
entity — ding, lock, and the info attributes — regardless of the cache,
and updates the cache. -/
theorem c2_publish_state_cache (t : IntercomTopics) (now1 now2 now3 : Nat)
    (s : IntercomState) :
    (publishState t now2 (some ()) (publishState t now1 (some ()) s).1).2 = [] ∧
    (publishState t now3 none s).2 =
      [{ topic := t.dingStateTopic, payload := s.ding.state },
       { topic := t.lockStateTopic, payload := s.lock.state },
       { topic := t.infoStateTopic, payload := toString now3 }] ∧
    (publishState t now3 none s).1.ding.publishedState = some s.ding.state ∧
    (publishState t now3 none s).1.lock.publishedState = some s.lock.state := by
  refine ⟨?_, ?_, ?_, ?_⟩
  · by_cases hd : (some s.ding.state != s.ding.publishedState) = true <;>
    by_cases hl : (some s.lock.state != s.lock.publishedState) = true <;>
    simp [publishState, publishDingState, publishLockState, hd, hl]
  all_goals
    simp [publishState, publishDingState, publishLockState, publishAttributes]

/-- C4: an unlock event sets the lock entity to `UNLOCKED` and arms an
auto-revert timer whose firing (when no further transition intervened)
returns the state to `LOCKED`; every transition preserves the timer
bookkeeping invariant, so at most one live timer exists per entity at
any instant; and a new unlock (resp. ding) event clears the previously
pending timer before arming a new one — the old handle is no longer live
afterwards. -/
theorem c4_unlock_auto_revert_single_timer (t : IntercomTopics) (s : IntercomState)
    (e : IntercomEvent) (h : TimerInv s) :
    (intercomStep t s IntercomEvent.unlocked).1.lock.state = "UNLOCKED" ∧
    ((intercomStep t s IntercomEvent.unlocked).1.unlockTimeout).isSome = true ∧
    (intercomStep t (intercomStep t s IntercomEvent.unlocked).1
        IntercomEvent.lockTimerFires).1.lock.state = "LOCKED" ∧
    TimerInv (intercomStep t s e).1 ∧
    (intercomStep t s e).1.liveLockTimers.length ≤ 1 ∧
    (intercomStep t s e).1.liveDingTimers.length ≤ 1 ∧
    (∀ h0, s.unlockTimeout = some h0 →
        h0 ∉ (intercomStep t s IntercomEvent.unlocked).1.liveLockTimers) ∧
    (∀ h0, s.dingTimeout = some h0 →
        h0 ∉ (intercomStep t s IntercomEvent.ding).1.liveDingTimers) := by
  obtain ⟨hu1, hu2, hu3, hu4, hu5, hu6⟩ := setDoorUnlocked_spec t s
  obtain ⟨hd1, hd2, hd3, hd4, hd5, hd6⟩ := processDing_spec t s
  have hinv := timerInv_step t s e h
  obtain ⟨h1, h2, h3, h4⟩ := h
  refine ⟨hu1, ?_, ?_, hinv, ?_, ?_, ?_, ?_⟩
  · show ((setDoorUnlocked t s).1.unlockTimeout).isSome = true
    rw [hu2]
    rfl
  · exact (unlockTimeoutFires_spec t (setDoorUnlocked t s).1 s.nextTimerId hu2).1
  · rw [hinv.1]
    exact option_toList_length_le_one _
  · rw [hinv.2.1]
    exact option_toList_length_le_one _
  · intro h0 hsome hmem
    replace hmem : h0 ∈ (setDoorUnlocked t s).1.liveLockTimers := hmem
    rw [hu3, clearUnlockTimeout_live_nil s h1] at hmem
    simp only [List.mem_singleton] at hmem
    have hlt : h0 < s.nextTimerId := h3 h0 (by rw [h1, hsome]; simp)
    omega
  · intro h0 hsome hmem
    replace hmem : h0 ∈ (processDing t s).1.liveDingTimers := hmem
    rw [hd3, clearDingTimeout_live_nil s h2] at hmem
    simp only [List.mem_singleton] at hmem
    have hlt : h0 < s.nextTimerId := h4 h0 (by rw [h2, hsome]; simp)
    omega

/-- C4 witness: the theorem applied at the concrete pending-timer state,
with the pending-handle hypotheses discharged at handles 0 and 1. -/
theorem c4_unlock_auto_revert_single_timer_witness :
    (intercomStep topicsW intercomStateW IntercomEvent.unlocked).1.lock.state
      = "UNLOCKED" ∧
    TimerInv (intercomStep topicsW intercomStateW IntercomEvent.unlocked).1 ∧
    0 ∉ (intercomStep topicsW intercomStateW IntercomEvent.unlocked).1.liveLockTimers ∧
    1 ∉ (intercomStep topicsW intercomStateW IntercomEvent.ding).1.liveDingTimers := by
  obtain ⟨a1, a2, a3, a4, a5, a6, a7, a8⟩ :=
    c4_unlock_auto_revert_single_timer topicsW intercomStateW IntercomEvent.unlocked
      (by decide)
  exact ⟨a1, a4, a7 0 (by decide), a8 1 (by decide)⟩

/-- C6 counterexample: the claim, as stated, quantifies over every
device type that is not a key of the `creators` table.  `'toString'` is
such a type (no own key, no `lock.` shape), yet the JS lookup
`creators['toString']` walks the prototype chain and hits the truthy
inherited `Object.prototype.toString`, so `deviceCreator()` is called
and returns the string `'[object Undefined]'` — not a `Lock` wrapper and
not `'not-supported'`, refuting both halves of the claim at this
input. -/
theorem c6_lock_fallback_counterexample :
    "toString" ∉ creatorKeys ∧
    strStartsWith "toString" "lock." = false ∧
    "toString" ≠ "lock" ∧
    mapDevice toStringDevice [] []
      = MapResult.junkValue "the string [object Undefined]" true ∧
    mapDevice toStringDevice [] [] ≠ MapResult.notSupported ∧
    mapDevice toStringDevice [] []
      ≠ MapResult.wrapped Wrapper.lock (buildDeviceInfo toStringDevice []) := by
  decide

/-- C6 (amended): for a table-dispatched device whose type string is
neither a key of the `creators` table nor a property name of
`Object.prototype` (which the JS property lookup reaches through the
prototype chain), the mapper yields a `Lock` wrapper exactly when the
type starts with `'lock.'` or equals `'lock'`; every other such device
yields `'not-supported'`.  (The type `'lock'` itself is a key of the
table — the getter — so for non-keys the second disjunct is vacuous; the
biconditional holds as stated.) -/
theorem c6_lock_fallback (device : Device) (allDevices : List Device) (events : List Event)
    (hk : device.kind = DeviceKind.other) (ht : device.deviceType ∉ creatorKeys)
    (hp : device.deviceType ∉ objectPrototypeKeys) :
    (mapDevice device allDevices events
        = MapResult.wrapped Wrapper.lock (buildDeviceInfo device allDevices)
      ↔ (strStartsWith device.deviceType "lock." = true ∨ device.deviceType = "lock")) ∧
    ((strStartsWith device.deviceType "lock." = false ∧ device.deviceType ≠ "lock") →
      mapDevice device allDevices events = MapResult.notSupported) := by
  have hfind := creatorTable_find?_eq_none device.deviceType ht
  constructor
  · by_cases hc : (strStartsWith device.deviceType "lock." = true ∨ device.deviceType = "lock")
    · simp [mapDevice, hk, mapByDeviceType, hfind, hp, lockGetter, hc, runCreator]
    · simp [mapDevice, hk, mapByDeviceType, hfind, hp, lockGetter, hc, runCreator]
  · intro hns
    have hc : ¬(strStartsWith device.deviceType "lock." = true ∨ device.deviceType = "lock") := by
      simp [hns.1, hns.2]
    simp [mapDevice, hk, mapByDeviceType, hfind, hp, lockGetter, hc]

/-- C6 witness: a concrete `lock.schlage` device (not a table key, not a
prototype member name) maps to the `Lock` wrapper. -/
theorem c6_lock_fallback_witness :
    mapDevice { id := "x", deviceType := "lock.schlage" } [] []
      = MapResult.wrapped Wrapper.lock
          (buildDeviceInfo { id := "x", deviceType := "lock.schlage" } []) :=
  (c6_lock_fallback { id := "x", deviceType := "lock.schlage" } [] [] rfl
    (by decide) (by decide)).1.mpr (Or.inl (by decide))

/-- C7: for devices A and B in the same list with `B.data.parentZid =
A.id` (A's id unique in the list), `buildDeviceInfo B` resolves the
`parentDevice` property to A, and `buildDeviceInfo A` attaches a
`childDevices` list that is exactly the devices whose `parentZid` equals
A's id — a list containing B. -/
theorem c7_parent_child_linkage (A B : Device) (l : List Device)
    (hA : A ∈ l) (hB : B ∈ l) (hpz : B.data.parentZid = some A.id)
    (huniq : ∀ d ∈ l, d.id = A.id → d = A) :
    (buildDeviceInfo B l).parentDevice = some (some A) ∧
    (buildDeviceInfo A l).childDevices =
      some (l.filter (fun d => d.data.parentZid == some A.id)) ∧
    B ∈ l.filter (fun d => d.data.parentZid == some A.id) := by
  refine ⟨?_, ?_, ?_⟩
  · simp only [buildDeviceInfo, hpz]
    rw [find_by_unique_id A l hA huniq]
  · have hchild : hasChildDevices A l = true := by
      unfold hasChildDevices
      exact List.any_eq_true.mpr ⟨B, hB, by simp [hpz]⟩
    simp only [buildDeviceInfo, hchild, if_true]
  · exact List.mem_filter.mpr ⟨hB, by simp [hpz]⟩

/-- C7 witness: the linkage at the concrete pair. -/
theorem c7_parent_child_linkage_witness :
    (buildDeviceInfo deviceB [deviceA, deviceB]).parentDevice = some (some deviceA) ∧
    (buildDeviceInfo deviceA [deviceA, deviceB]).childDevices =
      some ([deviceA, deviceB].filter (fun d => d.data.parentZid == some deviceA.id)) ∧
    deviceB ∈ [deviceA, deviceB].filter (fun d => d.data.parentZid == some deviceA.id) :=
  c7_parent_child_linkage deviceA deviceB [deviceA, deviceB] (by decide) (by decide)
    (by decide) (by decide)

/-- C9: when `processDevices` encounters a device whose identifier is
already registered, the loop body returns the registry unchanged (it
never reaches the mapper); and a successful `processDevices` run
preserves distinctness of the registered identifiers, so at most one
wrapper exists per vendor device identifier. -/
theorem c9_one_wrapper_per_device_id (registry : List MappedDevice)
    (allDevices : List Device) (events : List Event) (device : Device)
    (r : List MappedDevice)
    (hmem : getDeviceId device ∈ registry.map (fun d => d.deviceId))
    (hnodup : (registry.map (fun d => d.deviceId)).Nodup)
    (hrun : processDevices registry allDevices events = Except.ok r) :
    processDevice allDevices events registry device = Except.ok registry ∧
    (r.map (fun d => d.deviceId)).Nodup :=
  ⟨processDevice_existing allDevices events registry device hmem,
   processDevicesAux_nodup allDevices events allDevices registry r hnodup hrun⟩

/-- C9 witness: re-discovery of the registered identifier is a no-op. -/
theorem c9_one_wrapper_per_device_id_witness :
    processDevice [] [] registryW deviceW = Except.ok registryW ∧
    (registryW.map (fun d => d.deviceId)).Nodup :=
  c9_one_wrapper_per_device_id registryW [] [] deviceW registryW (by decide) (by decide) rfl

/-- C10 witness: one close event after shutdown, and a close of a running
supervisor. -/
theorem c10_no_restart_after_shutdown_witness :
    (mtxRun MtxFlag.shutdownFlag [MtxEvent.closeEvent]).1 = MtxFlag.shutdownFlag ∧
    MtxAction.restart ∉ (mtxRun MtxFlag.shutdownFlag [MtxEvent.closeEvent]).2 ∧
    handleClose MtxFlag.running =
      (MtxFlag.running,
       [MtxAction.waitSeconds 1, MtxAction.forceKill, MtxAction.waitSeconds 5,
        MtxAction.restart]) ∧
    (handleClose MtxFlag.running).2.count MtxAction.restart = 1 :=
  c10_no_restart_after_shutdown [MtxEvent.closeEvent] MtxFlag.running (by decide)
